import Mathlib

/-!
# TariffShock Risk Scoring Engine — verification development

Shallow embedding of the TariffShock backend's deterministic risk scoring
engine and its static tariff tables, with theorems about the properties
stated in the specification.

The static tariff-rate tables and the two lookup functions are translated
from `src/backend/src/tariff_data.py`, and the scenario-comparison logic
from `src/backend/src/routes.py` (`compare_scenarios`).  The risk engine
core itself (`src/risk_engine.py`) and the validated data-model classes
(`src/schemas.py`) are not present in the source tree — only their tests
and callers are — so those parts are modelled from the specification,
as marked in the doc comments below.  Monetary values, shares and rates
are embedded as exact rationals (`ℚ`).  Python's stable descending sort is
embedded as a stable insertion sort (a stable sort's output is uniquely
determined by the key and the input order, so this is extensionally
faithful).
-/

namespace TariffShock

attribute [local semireducible] Rat.add Rat.mul Rat.sub Rat.inv

/-- Modelled from the spec: the closed `Partner` enumeration of the data
model (`schemas.py` is missing from the source tree): `US`, `China`, `EU`,
`Other`. -/
inductive Partner where
  | US
  | China
  | EU
  | Other
deriving DecidableEq, Repr, Fintype

/-- The wire string of a partner, as used for tariff-table lookups. -/
def Partner.str : Partner → String
  | .US => "US"
  | .China => "China"
  | .EU => "EU"
  | .Other => "Other"

/-- Weight of the exposure term in the composite risk score (`W_EXPOSURE = 0.6`). -/
def W_EXPOSURE : ℚ := 6/10

/-- Weight of the concentration term in the composite risk score (`W_CONCENTRATION = 0.4`). -/
def W_CONCENTRATION : ℚ := 4/10

/-- Maximum admissible scenario tariff, in percent (`MAX_TARIFF_PERCENT = 25.0`). -/
def MAX_TARIFF_PERCENT : ℚ := 25

/-- Clamp `x` into the closed interval `[lo, hi]`. -/
def clamp (lo hi x : ℚ) : ℚ := if x ≤ lo then lo else if hi ≤ x then hi else x

/-- Modelled from the spec: rounding to one decimal place (`round(x, 1)`),
used by the risk-score formula; embedded as round-half-up on exact
rationals. -/
def round1 (x : ℚ) : ℚ := (Int.floor (x * 10 + 1/2) : ℚ) / 10

/-- Stable insertion (descending by `key`): insert `a` in front of the
first element whose key is at most `key a`. -/
def insertDesc {α : Type} (key : α → ℚ) (a : α) : List α → List α
  | [] => [a]
  | b :: bs => if key a < key b then b :: insertDesc key a bs else a :: b :: bs

/-- Stable descending-by-`key` sort (insertion sort), the embedding of
Python's stable `list.sort(key=lambda x: -key(x))`. -/
def sortDesc {α : Type} (key : α → ℚ) : List α → List α
  | [] => []
  | a :: as => insertDesc key a (sortDesc key as)

/-- Modelled from the spec: the `SectorSummary` record of the data model
(`schemas.py` is missing from the source tree).  `partner_shares` is the
total mapping Partner → share (partners absent from the upstream mapping
carry share 0). -/
structure SectorSummary where
  sector_id : String
  sector_name : String
  total_exports : ℚ
  partner_shares : Partner → ℚ
  top_partner : Partner
  top_partner_share : ℚ

/-- Modelled from the spec: the construction-time validity conditions of a
`SectorSummary`: non-negative total exports, `top_partner_share ∈ [0,1]`,
and every partner share in `[0,1]`. -/
def ValidSector (s : SectorSummary) : Prop :=
  0 ≤ s.total_exports ∧
  0 ≤ s.top_partner_share ∧ s.top_partner_share ≤ 1 ∧
  ∀ p, 0 ≤ s.partner_shares p ∧ s.partner_shares p ≤ 1

instance (s : SectorSummary) : Decidable (ValidSector s) := by
  unfold ValidSector; infer_instance

/-- Modelled from the spec: the `ScenarioInput` record (`schemas.py` is
missing from the source tree). -/
structure ScenarioInput where
  tariff_percent : ℚ
  target_partners : List Partner
  sector_filter : Option (List String)
deriving DecidableEq, Repr

/-- Modelled from the spec: validated construction of a `ScenarioInput` —
construction fails (returns `none`, producing no object) exactly when
`tariff_percent` lies outside the closed range `[0, 25]`. -/
def ScenarioInput.make (t : ℚ) (tps : List Partner) (f : Option (List String)) :
    Option ScenarioInput :=
  if 0 ≤ t ∧ t ≤ MAX_TARIFF_PERCENT then some ⟨t, tps, f⟩ else none

/-- Modelled from the spec: the explainability breakdown embedded in each
`SectorRiskOutput`. -/
structure ExplainabilityOutput where
  exposure_value : ℚ
  concentration_value : ℚ
  shock_value : ℚ
  exposure_component : ℚ
  concentration_component : ℚ
deriving DecidableEq, Repr

/-- Modelled from the spec: the per-(sector, scenario) output record. -/
structure SectorRiskOutput where
  sector_id : String
  sector_name : String
  exposure : ℚ
  concentration : ℚ
  shock : ℚ
  risk_score : ℚ
  dependency_percent : ℚ
  affected_export_value : ℚ
  top_partner : Partner
  risk_delta : ℚ
  explainability : ExplainabilityOutput
deriving DecidableEq, Repr

/-- Modelled from the spec: Exposure(sector, target_partners) — the sum of
the sector's shares over the targeted partners, clamped to `[0,1]`. -/
def calculate_exposure (s : SectorSummary) (tps : List Partner) : ℚ :=
  clamp 0 1 ((tps.map s.partner_shares).sum)

/-- Modelled from the spec: Concentration(sector) — the sector's
top-partner share, independent of the scenario. -/
def calculate_concentration (s : SectorSummary) : ℚ :=
  s.top_partner_share

/-- Modelled from the spec: Shock(tariff_percent) —
`tariff_percent / MAX_TARIFF_PERCENT`, clamped to `[0,1]`. -/
def calculate_shock (tariff_percent : ℚ) : ℚ :=
  clamp 0 1 (tariff_percent / MAX_TARIFF_PERCENT)

/-- Modelled from the spec: RiskScore(exposure, concentration, shock) —
`round(((W_EXPOSURE·e + W_CONCENTRATION·c) · shock) · 100, 1)` clamped to
`[0, 100]`. -/
def calculate_risk_score (exposure concentration shock : ℚ) : ℚ :=
  clamp 0 100 (round1 ((W_EXPOSURE * exposure + W_CONCENTRATION * concentration) * shock * 100))

/-- Modelled from the spec: AffectedExportValue(total_exports, exposure, shock). -/
def calculate_affected_export_value (total_exports exposure shock : ℚ) : ℚ :=
  total_exports * exposure * shock

/-- Modelled from the spec: evaluation of one sector under one scenario
(step 2 of the Scenario Evaluator): compute the four primitives, compose
them, and assemble a `SectorRiskOutput`; `risk_delta` is this scenario's
risk score minus the score under a zero-tariff baseline with the same
target partners; `dependency_percent` is `top_partner_share × 100`. -/
def calculate_sector_risk (s : SectorSummary) (sc : ScenarioInput) : SectorRiskOutput :=
  let e := calculate_exposure s sc.target_partners
  let c := calculate_concentration s
  let sh := calculate_shock sc.tariff_percent
  let rs := calculate_risk_score e c sh
  let baseline_rs := calculate_risk_score e c (calculate_shock 0)
  { sector_id := s.sector_id
    sector_name := s.sector_name
    exposure := e
    concentration := c
    shock := sh
    risk_score := rs
    dependency_percent := s.top_partner_share * 100
    affected_export_value := calculate_affected_export_value s.total_exports e sh
    top_partner := s.top_partner
    risk_delta := rs - baseline_rs
    explainability :=
      { exposure_value := e
        concentration_value := c
        shock_value := sh
        exposure_component := W_EXPOSURE * e
        concentration_component := W_CONCENTRATION * c } }

/-- Modelled from the spec: candidate-sector resolution (step 1 of the
Scenario Evaluator): `none` means every known sector; a filter list is
intersected with the known sector ids, unknown ids silently dropped.  The
Reference Data Provider's sector table is embedded as a list of
`SectorSummary` in load order. -/
def resolveSectors (uni : List SectorSummary) (f : Option (List String)) :
    List SectorSummary :=
  match f with
  | none => uni
  | some ids => uni.filter (fun s => ids.contains s.sector_id)

/-- Modelled from the spec: the metadata echo attached to every response
(weights and max-tariff constant in force). -/
structure RiskMetadata where
  w_exposure : ℚ
  w_concentration : ℚ
  max_tariff_percent : ℚ
deriving DecidableEq, Repr

/-- Modelled from the spec: the aggregate `ScenarioResponse`. -/
structure ScenarioResponse where
  scenario : ScenarioInput
  sectors : List SectorRiskOutput
  biggest_movers : List SectorRiskOutput
  metadata : RiskMetadata
deriving DecidableEq, Repr

/-- Modelled from the spec: the Scenario Evaluator — resolve the candidate
sectors, evaluate each one, sort descending by risk score (stably), take
the first five as `biggest_movers`, and attach the metadata. -/
def calculate_scenario (uni : List SectorSummary) (sc : ScenarioInput) :
    ScenarioResponse :=
  let outputs := (resolveSectors uni sc.sector_filter).map
    (fun s => calculate_sector_risk s sc)
  let sorted := sortDesc (fun o => o.risk_score) outputs
  { scenario := sc
    sectors := sorted
    biggest_movers := sorted.take 5
    metadata := ⟨W_EXPOSURE, W_CONCENTRATION, MAX_TARIFF_PERCENT⟩ }

/-- Modelled from the spec: the baseline entry point — `calculate_scenario`
at tariff 0 with no target partners. -/
def get_baseline (uni : List SectorSummary) (f : Option (List String)) :
    ScenarioResponse :=
  calculate_scenario uni { tariff_percent := 0, target_partners := [], sector_filter := f }

/-- `US_TARIFFS_ON_CANADA` from `tariff_data.py`: US tariff rates on
Canadian products by HS2 category. -/
def US_TARIFFS_ON_CANADA : List (String × ℚ) :=
  [("72", 25), ("73", 25), ("76", 10),
   ("44", 20), ("47", 15), ("48", 10),
   ("04", 15), ("10", 10), ("02", 5), ("03", 5),
   ("87", 25), ("84", 10), ("85", 10),
   ("27", 10),
   ("39", 10), ("40", 10), ("94", 15)]

/-- `CHINA_TARIFFS_ON_CANADA` from `tariff_data.py`. -/
def CHINA_TARIFFS_ON_CANADA : List (String × ℚ) :=
  [("10", 25), ("12", 25), ("02", 25), ("03", 25), ("47", 20)]

/-- `EU_TARIFFS_ON_CANADA` from `tariff_data.py`. -/
def EU_TARIFFS_ON_CANADA : List (String × ℚ) :=
  [("72", 5), ("76", 5)]

/-- `DEFAULT_TARIFF_RATE` from `tariff_data.py`. -/
def DEFAULT_TARIFF_RATE : ℚ := 0

/-- Dictionary lookup with default (`dict.get(k, d)`). -/
def tableGet (t : List (String × ℚ)) (k : String) (d : ℚ) : ℚ :=
  match t.find? (fun kv => kv.1 = k) with
  | some kv => kv.2
  | none => d

/-- Python's `str.zfill(2)`: left-pad with zeros to width 2, keeping a
leading sign character in front of the padding. -/
def zfill2 (s : String) : String :=
  if 2 ≤ s.length then s
  else
    let signLen : Nat := if s.startsWith "-" || s.startsWith "+" then 1 else 0
    s.take signLen ++ String.mk (List.replicate (2 - s.length) '0') ++ s.drop signLen

/-- `get_tariff_rate` from `tariff_data.py`: the tariff rate for an HS2
sector and a trading-partner name, defaulting to 0 for unknown pairs. -/
def get_tariff_rate (hs2_code partner : String) : ℚ :=
  let hs2 := zfill2 hs2_code
  if partner = "US" then tableGet US_TARIFFS_ON_CANADA hs2 DEFAULT_TARIFF_RATE
  else if partner = "China" then tableGet CHINA_TARIFFS_ON_CANADA hs2 DEFAULT_TARIFF_RATE
  else if partner = "EU" then tableGet EU_TARIFFS_ON_CANADA hs2 DEFAULT_TARIFF_RATE
  else DEFAULT_TARIFF_RATE

/-- `get_max_tariff_rate` from `tariff_data.py`: the maximum tariff rate
across the three partner tables for a sector. -/
def get_max_tariff_rate (hs2_code : String) : ℚ :=
  let hs2 := zfill2 hs2_code
  max (max (tableGet US_TARIFFS_ON_CANADA hs2 0) (tableGet CHINA_TARIFFS_ON_CANADA hs2 0))
    (tableGet EU_TARIFFS_ON_CANADA hs2 0)

/-- Modelled from the spec: the per-sector rate of actual-tariff replay
mode — the maximum, over the requested target partners, of the sector's
partner-specific rate from the static rate table (0 when absent). -/
def max_rate_over_partners (hs2 : String) (tps : List Partner) : ℚ :=
  (tps.map (fun p => get_tariff_rate hs2 p.str)).foldl max 0

/-- Modelled from the spec: actual-tariff replay mode
(`calculate_actual_tariffs_on_canada`, whose engine implementation is
missing from the source tree): for each candidate sector, feed the
sector-specific maximum actual rate into the same Shock/RiskScore pipeline,
then rank exactly as `calculate_scenario` does. -/
def calculate_actual_tariffs (uni : List SectorSummary) (tps : List Partner)
    (f : Option (List String)) : ScenarioResponse :=
  let outputs := (resolveSectors uni f).map
    (fun s => calculate_sector_risk s
      { tariff_percent := max_rate_over_partners s.sector_id tps
        target_partners := tps
        sector_filter := f })
  let sorted := sortDesc (fun o => o.risk_score) outputs
  { scenario := { tariff_percent := 0, target_partners := tps, sector_filter := f }
    sectors := sorted
    biggest_movers := sorted.take 5
    metadata := ⟨W_EXPOSURE, W_CONCENTRATION, MAX_TARIFF_PERCENT⟩ }

/-- One comparison record of the `/api/compare` endpoint (`routes.py`). -/
structure ComparisonRecord where
  sector_id : String
  sector_name : String
  baseline_risk : ℚ
  scenario_risk : ℚ
  risk_change : ℚ
  affected_export_value : ℚ
  top_partner : Partner
  dependency_percent : ℚ
deriving DecidableEq, Repr

/-- The response of the `/api/compare` endpoint (`routes.py`). -/
structure CompareResponse where
  comparison : List ComparisonRecord
  biggest_gainers : List ComparisonRecord
  total_sectors : Nat
deriving DecidableEq, Repr

/-- Baseline risk lookup of `compare_scenarios` in `routes.py`:
`baseline_sector.risk_score if baseline_sector else 0`. -/
def baselineRiskFor (baseline_sectors : List SectorRiskOutput) (sid : String) : ℚ :=
  match baseline_sectors.find? (fun b => b.sector_id = sid) with
  | some b => b.risk_score
  | none => 0

/-- The record constructor of `compare_scenarios` in `routes.py`: one
comparison entry for one shock-scenario sector output. -/
def mkComparison (baseline_sectors : List SectorRiskOutput) (s : SectorRiskOutput) :
    ComparisonRecord :=
  let baseline_risk := baselineRiskFor baseline_sectors s.sector_id
  { sector_id := s.sector_id
    sector_name := s.sector_name
    baseline_risk := baseline_risk
    scenario_risk := s.risk_score
    risk_change := round1 (s.risk_score - baseline_risk)
    affected_export_value := s.affected_export_value
    top_partner := s.top_partner
    dependency_percent := s.dependency_percent }

/-- `compare_scenarios` from `routes.py`: evaluate the baseline and the
shock scenario over the same candidate sector set (same `sector_filter`),
emit one comparison record per shock-scenario sector with
`risk_change = round(scenario_risk - baseline_risk, 1)` (baseline risk 0
when the sector is absent from the baseline result), sort by `risk_change`
descending (stably), and take the first five as `biggest_gainers`. -/
def compare_scenarios (uni : List SectorSummary)
    (baseline_tariff : ℚ) (baseline_partners : List Partner)
    (shock_tariff : ℚ) (shock_partners : List Partner)
    (f : Option (List String)) : CompareResponse :=
  let baseline_response := calculate_scenario uni
    { tariff_percent := baseline_tariff, target_partners := baseline_partners, sector_filter := f }
  let scenario_response := calculate_scenario uni
    { tariff_percent := shock_tariff, target_partners := shock_partners, sector_filter := f }
  let comparison := scenario_response.sectors.map (mkComparison baseline_response.sectors)
  let sorted := sortDesc (fun r => r.risk_change) comparison
  { comparison := sorted
    biggest_gainers := sorted.take 5
    total_sectors := sorted.length }

/-- The golden-test sector of the specification (Vehicles, HS2 87). -/
def vehiclesSector : SectorSummary :=
  { sector_id := "87"
    sector_name := "Vehicles"
    total_exports := 50000000000
    partner_shares := fun p =>
      match p with
      | .US => 62/100
      | .China => 8/100
      | .EU => 15/100
      | .Other => 15/100
    top_partner := .US
    top_partner_share := 62/100 }

/-- The golden-test scenario of the specification: 10% tariff targeting the US. -/
def usScenario10 : ScenarioInput :=
  { tariff_percent := 10, target_partners := [.US], sector_filter := none }

/-- The second mock sector of the test fixtures (Pharmaceuticals, HS2 30). -/
def pharmaSector : SectorSummary :=
  { sector_id := "30"
    sector_name := "Pharmaceuticals"
    total_exports := 10000000000
    partner_shares := fun p =>
      match p with
      | .US => 20/100
      | .China => 30/100
      | .EU => 40/100
      | .Other => 10/100
    top_partner := .EU
    top_partner_share := 40/100 }

/-- The two-sector mock sector table of the test fixtures. -/
def mockUniverse : List SectorSummary := [vehiclesSector, pharmaSector]

/-- The comparison record produced for the Vehicles sector when comparing
the zero baseline against the 10%-on-US scenario over the mock table. -/
def rec87 : ComparisonRecord :=
  { sector_id := "87"
    sector_name := "Vehicles"
    baseline_risk := 0
    scenario_risk := 248/10
    risk_change := 248/10
    affected_export_value := 12400000000
    top_partner := Partner.US
    dependency_percent := 62 }

/-! ## Basic lemmas about the numeric primitives and the sort -/

theorem le_clamp {lo hi : ℚ} (x : ℚ) (h : lo ≤ hi) : lo ≤ clamp lo hi x := by
  unfold clamp; split_ifs <;> linarith

theorem clamp_le_hi {lo hi : ℚ} (x : ℚ) (h : lo ≤ hi) : clamp lo hi x ≤ hi := by
  unfold clamp; split_ifs <;> linarith

theorem clamp_mono {lo hi x y : ℚ} (h : lo ≤ hi) (hxy : x ≤ y) :
    clamp lo hi x ≤ clamp lo hi y := by
  unfold clamp; split_ifs <;> linarith

theorem clamp_eq_self {lo hi x : ℚ} (h1 : lo ≤ x) (h2 : x ≤ hi) : clamp lo hi x = x := by
  unfold clamp; split_ifs <;> linarith

theorem round1_mono {x y : ℚ} (h : x ≤ y) : round1 x ≤ round1 y := by
  unfold round1
  have hf : (⌊x * 10 + 1/2⌋ : ℤ) ≤ ⌊y * 10 + 1/2⌋ := Int.floor_le_floor (by linarith)
  have hq : ((⌊x * 10 + 1/2⌋ : ℤ) : ℚ) ≤ ((⌊y * 10 + 1/2⌋ : ℤ) : ℚ) := by exact_mod_cast hf
  linarith

theorem insertDesc_perm {α : Type} (key : α → ℚ) (a : α) (l : List α) :
    (insertDesc key a l).Perm (a :: l) := by
  induction l with
  | nil => exact List.Perm.refl _
  | cons b bs ih =>
    unfold insertDesc
    split_ifs
    · exact ((ih.cons b).trans (List.Perm.swap a b bs))
    · exact List.Perm.refl _

theorem sortDesc_perm {α : Type} (key : α → ℚ) (l : List α) :
    (sortDesc key l).Perm l := by
  induction l with
  | nil => exact List.Perm.refl _
  | cons a as ih =>
    unfold sortDesc
    exact (insertDesc_perm key a (sortDesc key as)).trans (ih.cons a)

theorem insertDesc_sorted {α : Type} (key : α → ℚ) (a : α) (l : List α)
    (h : l.Pairwise (fun x y => key y ≤ key x)) :
    (insertDesc key a l).Pairwise (fun x y => key y ≤ key x) := by
  induction l with
  | nil => simp [insertDesc]
  | cons b bs ih =>
    rw [List.pairwise_cons] at h
    unfold insertDesc
    split_ifs with hab
    · rw [List.pairwise_cons]
      refine ⟨?_, ih h.2⟩
      intro x hx
      rcases List.mem_cons.mp ((insertDesc_perm key a bs).mem_iff.mp hx) with rfl | hxbs
      · exact le_of_lt hab
      · exact h.1 x hxbs
    · rw [List.pairwise_cons]
      refine ⟨?_, List.pairwise_cons.mpr h⟩
      intro x hx
      rcases List.mem_cons.mp hx with rfl | hxbs
      · exact not_lt.mp hab
      · exact le_trans (h.1 x hxbs) (not_lt.mp hab)

theorem sortDesc_sorted {α : Type} (key : α → ℚ) (l : List α) :
    (sortDesc key l).Pairwise (fun x y => key y ≤ key x) := by
  induction l with
  | nil => simp [sortDesc]
  | cons a as ih =>
    unfold sortDesc
    exact insertDesc_sorted key a _ ih

theorem mem_sortDesc {α : Type} (key : α → ℚ) (l : List α) (x : α) :
    x ∈ sortDesc key l ↔ x ∈ l :=
  (sortDesc_perm key l).mem_iff

/-- Candidate resolution with no filter keeps every known sector. -/
theorem resolveSectors_none (uni : List SectorSummary) : resolveSectors uni none = uni := rfl

/-- Candidate resolution with a filter keeps exactly the known sectors
whose id appears in the filter list. -/
theorem resolveSectors_some (uni : List SectorSummary) (ids : List String) :
    resolveSectors uni (some ids) = uni.filter (fun s => ids.contains s.sector_id) := rfl

/-- Projection lemma: the sector id of a sector evaluation echoes the input sector. -/
theorem csr_sector_id (s : SectorSummary) (sc : ScenarioInput) :
    (calculate_sector_risk s sc).sector_id = s.sector_id := rfl

/-- Projection lemma: the exposure field of a sector evaluation. -/
theorem csr_exposure (s : SectorSummary) (sc : ScenarioInput) :
    (calculate_sector_risk s sc).exposure = calculate_exposure s sc.target_partners := rfl

/-- Projection lemma: the concentration field of a sector evaluation. -/
theorem csr_concentration (s : SectorSummary) (sc : ScenarioInput) :
    (calculate_sector_risk s sc).concentration = calculate_concentration s := rfl

/-- Projection lemma: the shock field of a sector evaluation. -/
theorem csr_shock (s : SectorSummary) (sc : ScenarioInput) :
    (calculate_sector_risk s sc).shock = calculate_shock sc.tariff_percent := rfl

/-- Projection lemma: the risk-score field of a sector evaluation. -/
theorem csr_risk_score (s : SectorSummary) (sc : ScenarioInput) :
    (calculate_sector_risk s sc).risk_score =
      calculate_risk_score (calculate_exposure s sc.target_partners)
        (calculate_concentration s) (calculate_shock sc.tariff_percent) := rfl

/-- Projection lemma: the dependency-percent field of a sector evaluation. -/
theorem csr_dependency (s : SectorSummary) (sc : ScenarioInput) :
    (calculate_sector_risk s sc).dependency_percent = s.top_partner_share * 100 := rfl

/-- Projection lemma: the affected-export-value field of a sector evaluation. -/
theorem csr_affected (s : SectorSummary) (sc : ScenarioInput) :
    (calculate_sector_risk s sc).affected_export_value =
      calculate_affected_export_value s.total_exports
        (calculate_exposure s sc.target_partners) (calculate_shock sc.tariff_percent) := rfl

/-- Projection lemma: the risk-delta field of a sector evaluation. -/
theorem csr_risk_delta (s : SectorSummary) (sc : ScenarioInput) :
    (calculate_sector_risk s sc).risk_delta =
      calculate_risk_score (calculate_exposure s sc.target_partners)
          (calculate_concentration s) (calculate_shock sc.tariff_percent) -
        calculate_risk_score (calculate_exposure s sc.target_partners)
          (calculate_concentration s) (calculate_shock 0) := rfl

/-- Characterization of validated `ScenarioInput` construction succeeding. -/
theorem make_eq_some {t : ℚ} {tps : List Partner} {f : Option (List String)}
    {sc : ScenarioInput} (h : ScenarioInput.make t tps f = some sc) :
    sc = ⟨t, tps, f⟩ ∧ 0 ≤ t ∧ t ≤ MAX_TARIFF_PERCENT := by
  unfold ScenarioInput.make at h
  split at h
  · cases h
    exact ⟨rfl, by assumption⟩
  · cases h

/-! ## The claims -/

/-- C1: the golden scenario — sector with shares {US 0.62, China 0.08,
EU 0.15, Other 0.15}, top partner US at 0.62, total exports 5·10¹⁰,
evaluated at tariff 10% targeting [US], yields exposure 0.62,
concentration 0.62, shock 0.4, risk_score 24.8, dependency_percent 62.0
and affected_export_value 1.24·10¹⁰. -/
theorem golden_scenario_exact :
    (calculate_sector_risk vehiclesSector usScenario10).exposure = 62/100 ∧
    (calculate_sector_risk vehiclesSector usScenario10).concentration = 62/100 ∧
    (calculate_sector_risk vehiclesSector usScenario10).shock = 4/10 ∧
    (calculate_sector_risk vehiclesSector usScenario10).risk_score = 248/10 ∧
    (calculate_sector_risk vehiclesSector usScenario10).dependency_percent = 62 ∧
    (calculate_sector_risk vehiclesSector usScenario10).affected_export_value = 12400000000 := by
  decide

/-- C2: for every valid sector and every validly constructed scenario, the
produced `SectorRiskOutput` satisfies `0 ≤ risk_score ≤ 100`,
`0 ≤ exposure ≤ 1`, `0 ≤ concentration ≤ 1`, `0 ≤ shock ≤ 1`,
`0 ≤ dependency_percent ≤ 100` and `affected_export_value ≥ 0`. -/
theorem output_values_bounded
    (s : SectorSummary) (hs : ValidSector s)
    (t : ℚ) (tps : List Partner) (f : Option (List String)) (sc : ScenarioInput)
    (_hsc : ScenarioInput.make t tps f = some sc) :
    0 ≤ (calculate_sector_risk s sc).risk_score ∧
    (calculate_sector_risk s sc).risk_score ≤ 100 ∧
    0 ≤ (calculate_sector_risk s sc).exposure ∧
    (calculate_sector_risk s sc).exposure ≤ 1 ∧
    0 ≤ (calculate_sector_risk s sc).concentration ∧
    (calculate_sector_risk s sc).concentration ≤ 1 ∧
    0 ≤ (calculate_sector_risk s sc).shock ∧
    (calculate_sector_risk s sc).shock ≤ 1 ∧
    0 ≤ (calculate_sector_risk s sc).dependency_percent ∧
    (calculate_sector_risk s sc).dependency_percent ≤ 100 ∧
    0 ≤ (calculate_sector_risk s sc).affected_export_value := by
  obtain ⟨hte, hts0, hts1, hshares⟩ := hs
  rw [csr_risk_score, csr_exposure, csr_concentration, csr_shock, csr_dependency, csr_affected]
  have h01 : (0:ℚ) ≤ 1 := by norm_num
  have h0100 : (0:ℚ) ≤ 100 := by norm_num
  refine ⟨le_clamp _ h0100, clamp_le_hi _ h0100, le_clamp _ h01, clamp_le_hi _ h01,
    hts0, hts1, le_clamp _ h01, clamp_le_hi _ h01, by linarith, by linarith, ?_⟩
  unfold calculate_affected_export_value
  exact mul_nonneg (mul_nonneg hte (le_clamp _ h01)) (le_clamp _ h01)

/-- C2 witness: the bounds theorem instantiated at the golden sector and the
10%-on-US scenario. -/
theorem output_values_bounded_witness :
    ValidSector vehiclesSector ∧
    ScenarioInput.make 10 [Partner.US] none = some usScenario10 ∧
    (0 ≤ (calculate_sector_risk vehiclesSector usScenario10).risk_score ∧
     (calculate_sector_risk vehiclesSector usScenario10).risk_score ≤ 100 ∧
     0 ≤ (calculate_sector_risk vehiclesSector usScenario10).exposure ∧
     (calculate_sector_risk vehiclesSector usScenario10).exposure ≤ 1 ∧
     0 ≤ (calculate_sector_risk vehiclesSector usScenario10).concentration ∧
     (calculate_sector_risk vehiclesSector usScenario10).concentration ≤ 1 ∧
     0 ≤ (calculate_sector_risk vehiclesSector usScenario10).shock ∧
     (calculate_sector_risk vehiclesSector usScenario10).shock ≤ 1 ∧
     0 ≤ (calculate_sector_risk vehiclesSector usScenario10).dependency_percent ∧
     (calculate_sector_risk vehiclesSector usScenario10).dependency_percent ≤ 100 ∧
     0 ≤ (calculate_sector_risk vehiclesSector usScenario10).affected_export_value) :=
  ⟨by decide, by decide,
    output_values_bounded vehiclesSector (by decide) 10 [Partner.US] none usScenario10 (by decide)⟩

/-- C3: for a fixed valid sector and fixed target partners, the risk score is
monotone non-decreasing in the scenario tariff over the valid range [0, 25]. -/
theorem risk_monotone_in_tariff
    (s : SectorSummary) (hs : ValidSector s)
    (tps : List Partner) (f : Option (List String))
    (t1 t2 : ℚ) (sc1 sc2 : ScenarioInput)
    (h1 : ScenarioInput.make t1 tps f = some sc1)
    (h2 : ScenarioInput.make t2 tps f = some sc2)
    (h12 : t1 ≤ t2) :
    (calculate_sector_risk s sc1).risk_score ≤ (calculate_sector_risk s sc2).risk_score := by
  obtain ⟨rfl, ht10, ht1m⟩ := make_eq_some h1
  obtain ⟨rfl, ht20, ht2m⟩ := make_eq_some h2
  rw [csr_risk_score, csr_risk_score]
  unfold calculate_risk_score
  have h01 : (0:ℚ) ≤ 1 := by norm_num
  have he0 : 0 ≤ calculate_exposure s tps := le_clamp _ h01
  have hc0 : 0 ≤ calculate_concentration s := hs.2.1
  have hB : 0 ≤ W_EXPOSURE * calculate_exposure s tps +
      W_CONCENTRATION * calculate_concentration s := by
    unfold W_EXPOSURE W_CONCENTRATION
    nlinarith
  have hsh : calculate_shock t1 ≤ calculate_shock t2 := by
    unfold calculate_shock MAX_TARIFF_PERCENT
    exact clamp_mono h01 (by linarith)
  exact clamp_mono (by norm_num)
    (round1_mono (mul_le_mul_of_nonneg_right (mul_le_mul_of_nonneg_left hsh hB) (by norm_num)))

/-- C3 witness: the tariff-monotonicity theorem instantiated at the golden
sector, targets [US], tariffs 5 and 10. -/
theorem risk_monotone_in_tariff_witness :
    (calculate_sector_risk vehiclesSector ⟨5, [Partner.US], none⟩).risk_score ≤
      (calculate_sector_risk vehiclesSector ⟨10, [Partner.US], none⟩).risk_score :=
  risk_monotone_in_tariff vehiclesSector (by decide) [Partner.US] none 5 10 _ _
    (by decide) (by decide) (by norm_num)

/-- C4: a zero-tariff scenario gives every sector risk score 0 and risk
delta 0, regardless of the sector's exposure and concentration. -/
theorem zero_tariff_zero_risk (s : SectorSummary) (tps : List Partner)
    (f : Option (List String)) :
    (calculate_sector_risk s ⟨0, tps, f⟩).risk_score = 0 ∧
    (calculate_sector_risk s ⟨0, tps, f⟩).risk_delta = 0 := by
  have hrs : ∀ e c : ℚ, calculate_risk_score e c (calculate_shock 0) = 0 := by
    intro e c
    have hsh : calculate_shock 0 = 0 := by decide
    rw [hsh]
    unfold calculate_risk_score round1
    norm_num
    unfold clamp
    norm_num
  constructor
  · rw [csr_risk_score]
    exact hrs _ _
  · rw [csr_risk_delta]
    rw [hrs]
    norm_num

/-- C5: constructing a `ScenarioInput` succeeds exactly when the tariff lies
in the closed range [0, 25]; a failed construction produces no object, and
on any successfully constructed scenario the shock normalization is the
exact division by `MAX_TARIFF_PERCENT` — the evaluator never clamps a valid
scenario tariff. -/
theorem scenario_validation (t : ℚ) (tps : List Partner) (f : Option (List String)) :
    ((ScenarioInput.make t tps f).isSome ↔ (0 ≤ t ∧ t ≤ MAX_TARIFF_PERCENT)) ∧
    ∀ sc, ScenarioInput.make t tps f = some sc →
      sc = ⟨t, tps, f⟩ ∧
      calculate_shock sc.tariff_percent = sc.tariff_percent / MAX_TARIFF_PERCENT := by
  constructor
  · unfold ScenarioInput.make
    split
    · simp only [Option.isSome_some, true_iff]
      assumption
    · simp only [Option.isSome_none, Bool.false_eq_true, false_iff]
      assumption
  · intro sc h
    obtain ⟨rfl, h0, hm⟩ := make_eq_some h
    refine ⟨rfl, ?_⟩
    show calculate_shock t = t / MAX_TARIFF_PERCENT
    unfold calculate_shock clamp
    unfold MAX_TARIFF_PERCENT at hm ⊢
    have hd0 : (0:ℚ) ≤ t / 25 := div_nonneg h0 (by norm_num)
    have hd1 : t / 25 ≤ 1 := by
      rw [div_le_one (by norm_num : (0:ℚ) < 25)]
      exact hm
    split_ifs <;> linarith

/-- C5 witness: construction succeeds at tariff 10 and the shock there is
the exact division 10/25. -/
theorem scenario_validation_witness :
    (⟨10, [Partner.US], none⟩ : ScenarioInput) = ⟨10, [Partner.US], none⟩ ∧
    calculate_shock (10:ℚ) = (10:ℚ) / MAX_TARIFF_PERCENT :=
  (scenario_validation 10 [Partner.US] none).2 ⟨10, [Partner.US], none⟩ (by decide)

/-- C7: in every `ScenarioResponse`, the sector sequence is sorted by risk
score in descending order (by a stable, deterministic sort), and
`biggest_movers` is exactly the first five elements of that sequence. -/
theorem response_ranking (uni : List SectorSummary) (sc : ScenarioInput) :
    (calculate_scenario uni sc).sectors.Pairwise
      (fun a b => b.risk_score ≤ a.risk_score) ∧
    (calculate_scenario uni sc).biggest_movers =
      (calculate_scenario uni sc).sectors.take 5 := by
  exact ⟨sortDesc_sorted _ _, rfl⟩

/-- C9: candidate-sector resolution — with no filter, every known sector is
evaluated; with a filter list, exactly the known sectors in the filter are
evaluated and unknown ids are silently dropped; concretely, filtering the
two-sector mock sector table by ["UNKNOWN", "87"] yields exactly one
result, for sector "87". -/
theorem sector_filter_semantics :
    (∀ (uni : List SectorSummary) (sc : ScenarioInput), sc.sector_filter = none →
      (calculate_scenario uni sc).sectors.Perm
        (uni.map (fun s => calculate_sector_risk s sc))) ∧
    (∀ (uni : List SectorSummary) (sc : ScenarioInput) (ids : List String),
      sc.sector_filter = some ids →
      (calculate_scenario uni sc).sectors.Perm
        ((uni.filter (fun s => ids.contains s.sector_id)).map
          (fun s => calculate_sector_risk s sc))) ∧
    (calculate_scenario mockUniverse
        ⟨10, [Partner.US], some ["UNKNOWN", "87"]⟩).sectors.map
      (fun o => o.sector_id) = ["87"] := by
  refine ⟨?_, ?_, by decide⟩
  · intro uni sc h
    show (sortDesc (fun o => o.risk_score) ((resolveSectors uni sc.sector_filter).map
      (fun s => calculate_sector_risk s sc))).Perm _
    rw [h, resolveSectors_none]
    exact sortDesc_perm _ _
  · intro uni sc ids h
    show (sortDesc (fun o => o.risk_score) ((resolveSectors uni sc.sector_filter).map
      (fun s => calculate_sector_risk s sc))).Perm _
    rw [h, resolveSectors_some]
    exact sortDesc_perm _ _

/-- C9 witness: the filter semantics instantiated on the mock sector table,
with no filter and with the ["UNKNOWN", "87"] filter. -/
theorem sector_filter_semantics_witness :
    (calculate_scenario mockUniverse ⟨10, [Partner.US], none⟩).sectors.Perm
      (mockUniverse.map (fun s => calculate_sector_risk s ⟨10, [Partner.US], none⟩)) ∧
    (calculate_scenario mockUniverse ⟨10, [Partner.US], some ["UNKNOWN", "87"]⟩).sectors.Perm
      ((mockUniverse.filter
          (fun s => (["UNKNOWN", "87"] : List String).contains s.sector_id)).map
        (fun s => calculate_sector_risk s ⟨10, [Partner.US], some ["UNKNOWN", "87"]⟩)) :=
  ⟨sector_filter_semantics.1 mockUniverse ⟨10, [Partner.US], none⟩ rfl,
   sector_filter_semantics.2.1 mockUniverse ⟨10, [Partner.US], some ["UNKNOWN", "87"]⟩
     ["UNKNOWN", "87"] rfl⟩

/-- C6: in actual-tariff replay mode, each sector's evaluation feeds into
the Shock/RiskScore pipeline the maximum, over only the requested target
partners, of that sector's partner-specific rate from the static rate
table (0 for pairs absent from the table): the produced sector outputs are
exactly the per-sector evaluations at that rate, and every output's shock
is the shock of that rate. -/
theorem actual_tariff_replay_rate (uni : List SectorSummary) (tps : List Partner)
    (f : Option (List String)) :
    (calculate_actual_tariffs uni tps f).sectors.Perm
      ((resolveSectors uni f).map (fun s => calculate_sector_risk s
        { tariff_percent := (tps.map (fun p => get_tariff_rate s.sector_id p.str)).foldl max 0
          target_partners := tps
          sector_filter := f })) ∧
    ∀ o ∈ (calculate_actual_tariffs uni tps f).sectors,
      o.shock = calculate_shock
        ((tps.map (fun p => get_tariff_rate o.sector_id p.str)).foldl max 0) := by
  constructor
  · exact sortDesc_perm _ _
  · intro o ho
    rw [show (calculate_actual_tariffs uni tps f).sectors =
      sortDesc (fun x => x.risk_score) ((resolveSectors uni f).map
        (fun s => calculate_sector_risk s
          { tariff_percent := max_rate_over_partners s.sector_id tps
            target_partners := tps
            sector_filter := f })) from rfl, mem_sortDesc] at ho
    obtain ⟨s, _hs, rfl⟩ := List.mem_map.mp ho
    rfl

/-- C6 witness: in the replay over the mock sector table targeting [US],
the Vehicles sector is evaluated at the actual US rate for HS2 87 (25%),
and its shock is the shock of that table rate. -/
theorem actual_tariff_replay_rate_witness :
    (calculate_sector_risk vehiclesSector ⟨25, [Partner.US], none⟩).shock =
      calculate_shock (([Partner.US].map (fun p => get_tariff_rate
          (calculate_sector_risk vehiclesSector ⟨25, [Partner.US], none⟩).sector_id
          p.str)).foldl max 0) :=
  (actual_tariff_replay_rate mockUniverse [Partner.US] none).2 _ (by decide)

/-- C8: every comparison record carries
`risk_change = round1(scenario risk − baseline risk)` with the baseline
risk looked up in the independently evaluated baseline response (0 when the
sector is absent there); the records are sorted by `risk_change`
descending; and `biggest_gainers` is exactly the first five records. -/
theorem compare_scenarios_spec (uni : List SectorSummary)
    (bt : ℚ) (btps : List Partner) (st : ℚ) (stps : List Partner)
    (f : Option (List String)) :
    (∀ r ∈ (compare_scenarios uni bt btps st stps f).comparison,
      ∃ s ∈ (calculate_scenario uni ⟨st, stps, f⟩).sectors,
        r.sector_id = s.sector_id ∧
        r.scenario_risk = s.risk_score ∧
        r.baseline_risk =
          baselineRiskFor (calculate_scenario uni ⟨bt, btps, f⟩).sectors s.sector_id ∧
        r.risk_change = round1 (s.risk_score -
          baselineRiskFor (calculate_scenario uni ⟨bt, btps, f⟩).sectors s.sector_id)) ∧
    (∀ sid : String,
      (∀ b ∈ (calculate_scenario uni ⟨bt, btps, f⟩).sectors, b.sector_id ≠ sid) →
      baselineRiskFor (calculate_scenario uni ⟨bt, btps, f⟩).sectors sid = 0) ∧
    (compare_scenarios uni bt btps st stps f).comparison.Pairwise
      (fun a b => b.risk_change ≤ a.risk_change) ∧
    (compare_scenarios uni bt btps st stps f).biggest_gainers =
      (compare_scenarios uni bt btps st stps f).comparison.take 5 := by
  refine ⟨?_, ?_, ?_, rfl⟩
  · intro r hr
    rw [show (compare_scenarios uni bt btps st stps f).comparison =
      sortDesc (fun x => x.risk_change)
        ((calculate_scenario uni ⟨st, stps, f⟩).sectors.map
          (mkComparison (calculate_scenario uni ⟨bt, btps, f⟩).sectors)) from rfl,
      mem_sortDesc] at hr
    obtain ⟨s, hs, rfl⟩ := List.mem_map.mp hr
    exact ⟨s, hs, rfl, rfl, rfl, rfl⟩
  · intro sid h
    unfold baselineRiskFor
    rw [List.find?_eq_none.mpr]
    intro b hb
    simpa using h b hb
  · exact (sortDesc_sorted _ _).imp (fun hab => hab)

/-- C8 witness: the comparison theorem instantiated over the mock table
with baseline (0, []) and shock (10, [US]); the Vehicles record is related
to the shock evaluation, and an id absent from the baseline gets baseline
risk 0. -/
theorem compare_scenarios_spec_witness :
    (∃ s ∈ (calculate_scenario mockUniverse ⟨10, [Partner.US], none⟩).sectors,
      rec87.sector_id = s.sector_id ∧
      rec87.scenario_risk = s.risk_score ∧
      rec87.baseline_risk =
        baselineRiskFor (calculate_scenario mockUniverse ⟨0, [], none⟩).sectors s.sector_id ∧
      rec87.risk_change = round1 (s.risk_score -
        baselineRiskFor (calculate_scenario mockUniverse ⟨0, [], none⟩).sectors s.sector_id)) ∧
    baselineRiskFor (calculate_scenario mockUniverse ⟨0, [], none⟩).sectors "99" = 0 :=
  ⟨(compare_scenarios_spec mockUniverse 0 [] 10 [Partner.US] none).1 rec87 (by decide),
   (compare_scenarios_spec mockUniverse 0 [] 10 [Partner.US] none).2.1 "99" (by decide)⟩

/-- C10: for every HS2 code string, `get_max_tariff_rate` agrees with the
maximum over the three partners of `get_tariff_rate` — both apply the same
two-digit zero-padding before looking up the same tables. -/
theorem max_tariff_rate_agrees (s : String) :
    get_max_tariff_rate s =
      max (max (get_tariff_rate s "US") (get_tariff_rate s "China"))
        (get_tariff_rate s "EU") := by
  unfold get_max_tariff_rate get_tariff_rate DEFAULT_TARIFF_RATE
  norm_num [show ("China" : String) ≠ "US" from by decide,
    show ("EU" : String) ≠ "US" from by decide,
    show ("EU" : String) ≠ "China" from by decide]

end TariffShock
